import Mathlib

/-!
# Verification of the Midea device-session core (`core/device.py`)

This file is a shallow embedding of the device-session logic of
`custom_components/midea_auto_cloud/core/device.py`, together with theorems
settling the frozen claims about it.

Modelling conventions:

* Python attribute values are modelled by `Value` (int / str / bool / None).
  Python `==` between values is `pyEq` (it identifies `True` with `1` and
  `False` with `0`, as Python does); Python `is None` is a structural match
  on `Value.vnull`.
* A Python `dict` keyed by strings is an insertion-ordered association list
  `Dict`; `dinsert` mirrors `d[k] = v` (replace in place, else append) and
  `dget` mirrors `d.get(k)`.
* The cloud relay and the lua codec are external collaborators; they are
  modelled as oracle records (`Cloud`, `Codec`) whose operations return
  `Except Unit α`: `Except.error ()` models a raised exception, the normal
  value models the returned object (with `Option` for `None` results).
* Calculate-rule right-hand sides are strings built from bracketed attribute
  paths and arithmetic (`"[b]*2"`).  They are modelled as an expression tree
  `Expr` whose `Expr.render` is exactly the configured string; the firing
  test `rvalue.find("[" + s + "]") >= 0` is the substring test `strFind` on
  the rendered string, and `exec` of the generated assignment is
  `Expr.eval` (evaluation failure, e.g. a KeyError, yields `none`, matching
  the caught-and-logged exception in the source).
* Outbound side effects (cloud status query, cloud control call, cloud
  transparent send) are recorded as a list of `Event`s; subscriber
  notification (`_update_all`) is `updateAll`/`mergeNotifications`.
-/

/-- A Python attribute value as used by the device session: bool, int,
string or `None`.  (Floats and nested containers never reach the store in
the modelled paths.) -/
inductive Value where
  | vint : Int → Value
  | vstr : String → Value
  | vbool : Bool → Value
  | vnull : Value
deriving DecidableEq, Repr

/-- Python `==` on attribute values: numeric equality identifies booleans
with 0/1, all other cross-type comparisons are unequal. -/
def pyEq : Value → Value → Bool
  | Value.vint a, Value.vint b => a == b
  | Value.vint a, Value.vbool b => a == (if b then (1 : Int) else 0)
  | Value.vbool a, Value.vint b => (if a then (1 : Int) else 0) == b
  | Value.vbool a, Value.vbool b => a == b
  | Value.vstr a, Value.vstr b => a == b
  | Value.vnull, Value.vnull => true
  | _, _ => false

/-- Coercion of a value to a Python integer for arithmetic (ints and bools
only); anything else makes the generated expression raise, modelled as
`none`. -/
def toPyInt : Value → Option Int
  | Value.vint n => some n
  | Value.vbool b => some (if b then 1 else 0)
  | _ => none

/-- An insertion-ordered string-keyed dictionary, the model of the Python
dicts used for the attribute store, status mappings and deltas. -/
abbrev Dict := List (String × Value)

/-- `dget d k` is Python `d.get(k)` / `d[k]` lookup. -/
def dget : Dict → String → Option Value
  | [], _ => none
  | (k', v) :: rest, k => if k' = k then some v else dget rest k

/-- `dinsert d k v` is Python `d[k] = v`: replace the value in place if the
key exists, otherwise append the pair. -/
def dinsert : Dict → String → Value → Dict
  | [], k, v => [(k, v)]
  | (k', v') :: rest, k, v =>
    if k' = k then (k', v) :: rest else (k', v') :: dinsert rest k v

/-- `dgetD d k dv` is Python `d.get(k, dv)`. -/
def dgetD (d : Dict) (k : String) (dv : Value) : Value :=
  (dget d k).getD dv

/-- `dcontains d k` is Python `k in d`. -/
def dcontains (d : Dict) (k : String) : Bool :=
  (dget d k).isSome

/-- Does the character list `needle` occur at the start of `hay`? -/
def startsWithChars : List Char → List Char → Bool
  | [], _ => true
  | _ :: _, [] => false
  | a :: as, b :: bs => a == b && startsWithChars as bs

/-- Does `needle` occur anywhere in `hay`? -/
def hasSubChars (needle : List Char) : List Char → Bool
  | [] => startsWithChars needle []
  | b :: bs => startsWithChars needle (b :: bs) || hasSubChars needle bs

/-- `strFind hay needle` is Python `hay.find(needle) >= 0`. -/
def strFind (hay needle : String) : Bool :=
  hasSubChars needle.toList hay.toList

/-- The right-hand side of a calculate rule: an arithmetic expression over
bracketed attribute paths, e.g. `"[b]*2"` is `mul (ref "b") (lit 2)`. -/
inductive Expr where
  | ref : String → Expr
  | lit : Int → Expr
  | add : Expr → Expr → Expr
  | mul : Expr → Expr → Expr
deriving DecidableEq, Repr

/-- The configured string form of an rvalue, as stored in the rule table;
this is the string the firing test substring-searches. -/
def Expr.render : Expr → String
  | Expr.ref n => "[" ++ n ++ "]"
  | Expr.lit n => toString n
  | Expr.add a b => a.render ++ "+" ++ b.render
  | Expr.mul a b => a.render ++ "*" ++ b.render

/-- Evaluation of the generated expression over an environment dict, as
`exec` does after rewriting brackets to dict lookups.  A missing key or a
non-numeric operand raises, modelled as `none`. -/
def Expr.eval (env : Dict) : Expr → Option Value
  | Expr.ref n => dget env n
  | Expr.lit n => some (Value.vint n)
  | Expr.add a b =>
    match a.eval env, b.eval env with
    | some x, some y =>
      match toPyInt x, toPyInt y with
      | some xi, some yi => some (Value.vint (xi + yi))
      | _, _ => none
    | _, _ => none
  | Expr.mul a b =>
    match a.eval env, b.eval env with
    | some x, some y =>
      match toPyInt x, toPyInt y with
      | some xi, some yi => some (Value.vint (xi * yi))
      | _, _ => none
    | _, _ => none

/-- One entry of `self._calculate_get`: `{lvalue: "[a]", rvalue: "[b]*2"}`.
`lvalue` holds the attribute name inside the brackets. -/
structure CalcRule where
  lvalue : String
  rvalue : Expr
deriving DecidableEq, Repr

/-- The per-session configuration installed by the setup code through
`set_queries` / `set_centralized` / `set_calculate` / `set_default_values`,
plus the constructor's `device_type`. -/
structure Config where
  device_type : Nat
  queries : List Dict
  centralized : List String
  calculate_get : List CalcRule
  default_values : Dict
deriving Repr

/-- The `ParseMessageResult` enum of the source. -/
inductive ParseMessageResult where
  | SUCCESS
  | PADDING
  | ERROR
deriving DecidableEq, Repr

/-- Loop body of the default-seeding pass: stage the default exactly when
the attribute is absent from the store or stored as `None`. -/
def seedStep (attrs : Dict) (ns : Dict) (kv : String × Value) : Dict :=
  match dget attrs kv.1 with
  | none => dinsert ns kv.1 kv.2
  | some w => if w = Value.vnull then dinsert ns kv.1 kv.2 else ns

/-- Step 1 of the merge (`_parse_cloud_message`): for every configured
default value whose attribute is currently absent from the store or stored
as `None`, stage the default into the delta. -/
def seedDefaults (defaults : Dict) (attrs : Dict) : Dict :=
  defaults.foldl (seedStep attrs) []

/-- Loop body of the overlay pass: stage the incoming value exactly when
the key is absent from the store or its stored value differs. -/
def overlayStep (attrs : Dict) (ns : Dict) (kv : String × Value) : Dict :=
  match dget attrs kv.1 with
  | none => dinsert ns kv.1 kv.2
  | some w => if pyEq w kv.2 then ns else dinsert ns kv.1 kv.2

/-- Step 2 of the merge: overlay every incoming key whose value differs
from (or is absent in) the current store onto the staged delta. -/
def overlayStatus (attrs : Dict) (status : Dict) (ns : Dict) : Dict :=
  status.foldl (overlayStep attrs) ns

/-- The delta staged by steps 1 and 2 of the merge, before calculate rules
run. -/
def stageDelta (cfg : Config) (attrs status : Dict) : Dict :=
  overlayStatus attrs status (seedDefaults cfg.default_values attrs)

/-- Step 3 of the merge, one rule: the rule is attempted when the rendered
rvalue contains `"[s]"` for some key `s` of the current delta; then the two
generated assignments run, each under its own try: the store-side one
assigns the rvalue evaluated over the store, the delta-side one assigns the
rvalue evaluated over the delta; a failed evaluation is caught and assigns
nothing. -/
def applyCalcRule (st : Dict × Dict) (c : CalcRule) : Dict × Dict :=
  let attrs := st.1
  let ns := st.2
  let fires := ns.any (fun kv => strFind c.rvalue.render ("[" ++ kv.1 ++ "]"))
  if fires then
    let attrs' :=
      match c.rvalue.eval attrs with
      | some v => dinsert attrs c.lvalue v
      | none => attrs
    let ns' :=
      match c.rvalue.eval ns with
      | some v => dinsert ns c.lvalue v
      | none => ns
    (attrs', ns')
  else (attrs, ns)

/-- The outcome of `_parse_cloud_message`: the attribute store afterwards,
the final delta, whether `_update_all` was invoked with the delta, and the
returned `ParseMessageResult`. -/
structure ParseOutcome where
  attrs : Dict
  delta : Dict
  notified : Bool
  result : ParseMessageResult
deriving Repr

/-- `MiedaDevice._parse_cloud_message(status, update)`.  Faithful points:
the store-commit statements for defaults and incoming keys are commented
out in the source, so the store is only ever written by the calculate-rule
assignments; the non-empty check happens once, before the rules; the single
`return` yields `ParseMessageResult.SUCCESS`. -/
def parseCloudMessage (cfg : Config) (attrs status : Dict) (update : Bool) :
    ParseOutcome :=
  let ns1 := stageDelta cfg attrs status
  if ns1.isEmpty then
    { attrs := attrs, delta := ns1, notified := false,
      result := ParseMessageResult.SUCCESS }
  else
    let p := cfg.calculate_get.foldl applyCalcRule (attrs, ns1)
    { attrs := p.1, delta := p.2, notified := update,
      result := ParseMessageResult.SUCCESS }

/-- `MiedaDevice._update_all(status)`: invoke every registered subscriber
callback once with the given mapping.  Subscribers are identified by their
registration index. -/
def updateAll (subscribers : List Nat) (status : Dict) : List (Nat × Dict) :=
  subscribers.map (fun u => (u, status))

/-- The subscriber invocations produced by one merge: `_update_all` runs
with the delta exactly when the merge notified. -/
def mergeNotifications (subscribers : List Nat) (o : ParseOutcome) :
    List (Nat × Dict) :=
  if o.notified then updateAll subscribers o.delta else []

/-- Hex digit for `"%02X"` formatting. -/
def hexDigit (n : Nat) : Char :=
  if n < 10 then Char.ofNat (48 + n) else Char.ofNat (55 + n)

/-- `"%02X" % n` for a byte. -/
def hexByte (n : Nat) : String :=
  String.mk [hexDigit ((n / 16) % 16), hexDigit (n % 16)]

/-- The `"T0x%02X" % device_type` label stored under `"device_type"`. -/
def deviceTypeLabel (t : Nat) : String :=
  "T0x" ++ hexByte t

/-- The attribute store as seeded by the `MiedaDevice` constructor: the
static identity fields only. -/
def mkInitialAttributes (device_type : Nat) (sn sn8 subtype : Value) : Dict :=
  [("device_type", Value.vstr (deviceTypeLabel device_type)),
   ("sn", sn), ("sn8", sn8), ("subtype", subtype)]

example : parseCloudMessage
    { device_type := 0xAC, queries := [[]], centralized := [],
      calculate_get := [], default_values := [] }
    (mkInitialAttributes 0xAC (Value.vstr "SN") (Value.vstr "SN8") (Value.vint 10))
    [("temperature", Value.vint 25)] true
  = { attrs := mkInitialAttributes 0xAC (Value.vstr "SN") (Value.vstr "SN8") (Value.vint 10),
      delta := [("temperature", Value.vint 25)], notified := true,
      result := ParseMessageResult.SUCCESS } := by
  rfl

/-- One-level-split of a dotted key: Python `key.split('.')`. -/
def splitDots : List Char → List (List Char)
  | [] => [[]]
  | c :: rest =>
    let r := splitDots rest
    if c = '.' then [] :: r
    else
      match r with
      | [] => [[c]]
      | g :: gs => (c :: g) :: gs

/-- `key.split('.')` on strings. -/
def splitKey (k : String) : List String :=
  (splitDots k.toList).map (fun cs => String.mk cs)

/-- A nested (tree-shaped) mapping, the result of
`_convert_to_nested_structure`; only built and handed to the codec / cloud,
never inspected by the session. -/
inductive Nested where
  | leaf : Value → Nested
  | node : List (String × Nested) → Nested

/-- A nested dictionary. -/
abbrev NestedDict := List (String × Nested)

/-- Lookup in a nested dictionary. -/
def nfind : NestedDict → String → Option Nested
  | [], _ => none
  | (k', v) :: rest, k => if k' = k then some v else nfind rest k

/-- In-place insert in a nested dictionary (Python `d[k] = v`). -/
def ninsert : NestedDict → String → Nested → NestedDict
  | [], k, v => [(k, v)]
  | (k', v') :: rest, k, v =>
    if k' = k then (k', v) :: rest else (k', v') :: ninsert rest k v

/-- Walk/create the path of a dotted key and set the final value, as the
loop body of `_convert_to_nested_structure` does.  (If an intermediate key
holds a non-dict it is treated as an empty dict; the source would raise
there, a case no modelled path exercises.) -/
def insertPath (d : NestedDict) : List String → Value → NestedDict
  | [], _ => d
  | [k], v => ninsert d k (Nested.leaf v)
  | k :: rest, v =>
    let sub :=
      match nfind d k with
      | some (Nested.node m) => m
      | _ => []
    ninsert d k (Nested.node (insertPath sub rest v))

/-- `MiedaDevice._convert_to_nested_structure(attributes)`. -/
def convertToNested (d : Dict) : NestedDict :=
  d.foldl
    (fun acc kv =>
      if kv.1.toList.any (fun c => c = '.') then insertPath acc (splitKey kv.1) kv.2
      else ninsert acc kv.1 (Nested.leaf kv.2))
    []

/-- A fallible Python call: `Except.error ()` models a raised exception. -/
abbrev PyRes (α : Type) := Except Unit α

/-- The outward side effects of a session operation, in order. -/
inductive Event where
  | getStatus : Dict → Event
  | notifyAll : Dict → Event
  | sendControl : NestedDict → Dict → Event
  | cloudSend : String → Event

/-- The cloud relay collaborator (`MSmartHomeCloud` / `MeijuCloud`; the two
provider variants differ only in call signature, which the model elides).
`Option` return values model `None` results. -/
structure Cloud where
  get_device_status : Dict → PyRes (Option Dict)
  send_device_control : NestedDict → Dict → PyRes Unit
  send_cloud : String → PyRes (Option String)

/-- The lua codec collaborator (`MideaCodec`). -/
structure Codec where
  build_query : Dict → PyRes (Option String)
  build_control : NestedDict → Dict → PyRes (Option String)
  decode_status : String → PyRes (Option Dict)

/-- `MiedaDevice._send_message(data)` (reached via `_build_send`): send the
command through the cloud transparent channel; when a (truthy) reply comes
back, decode it and run the merge with `update=False`.  A `None` cloud
raises (`AttributeError`), as do `send_cloud` / `decode_status` failures;
the ERROR/SUCCESS result comparison at the end has no effect. -/
def sendMessage (cfg : Config) (cloudOpt : Option Cloud) (codec : Codec)
    (attrs : Dict) (data : String) : PyRes (Dict × List Event) :=
  match cloudOpt with
  | none => Except.error ()
  | some cloud =>
    match cloud.send_cloud data with
    | Except.error e => Except.error e
    | Except.ok replyOpt =>
      match replyOpt with
      | none => Except.ok (attrs, [Event.cloudSend data])
      | some r =>
        if r = "" then Except.ok (attrs, [Event.cloudSend data])
        else
          match codec.decode_status r with
          | Except.error e => Except.error e
          | Except.ok decOpt =>
            match decOpt with
            | none => Except.ok (attrs, [Event.cloudSend data])
            | some dec =>
              if dec.isEmpty then Except.ok (attrs, [Event.cloudSend data])
              else
                let o := parseCloudMessage cfg attrs dec false
                Except.ok (o.attrs, [Event.cloudSend data])

/-- The `T0xD9` dual-chamber derivation at the top of the `refresh_status`
loop: returns the (possibly) updated store and the actual query.  With
`db_position == 1` the stored location is passed through; with
`db_position == 0` the location flips between 1 and 2 and the selection
label is written directly into the store. -/
def deriveQueryD9 (cfg : Config) (attrs : Dict) (query : Dict) :
    Dict × Dict :=
  if cfg.device_type = 0xD9 then
    let dbPos := dgetD attrs "db_position" (Value.vint 1)
    if pyEq dbPos (Value.vint 1) then
      let cur := dgetD attrs "db_location" (Value.vint 1)
      (attrs, dinsert query "db_location" cur)
    else if pyEq dbPos (Value.vint 0) then
      let cur := dgetD attrs "db_location" (Value.vint 1)
      let calcLoc : Value :=
        if pyEq cur (Value.vint 1) then Value.vint 2 else Value.vint 1
      let attrs' :=
        if pyEq calcLoc (Value.vint 1) then
          dinsert attrs "db_location_selection" (Value.vstr "left")
        else if pyEq calcLoc (Value.vint 2) then
          dinsert attrs "db_location_selection" (Value.vstr "right")
        else attrs
      (attrs', dinsert query "db_location" calcLoc)
    else (attrs, query)
  else (attrs, query)

/-- The fallback tail of one `refresh_status` iteration: the cloud call
returned no (truthy) status, so ask the codec for a local query command and
send it.  Neither `build_query` nor the send is inside a try here, so their
exceptions propagate. -/
def refreshFallback (cfg : Config) (cloud : Cloud) (codecOpt : Option Codec)
    (attrs : Dict) (aq : Dict) : PyRes (Dict × List Event) :=
  match codecOpt with
  | none => Except.ok (attrs, [Event.getStatus aq])
  | some codec =>
    match codec.build_query aq with
    | Except.error e => Except.error e
    | Except.ok cmdOpt =>
      match cmdOpt with
      | none => Except.ok (attrs, [Event.getStatus aq])
      | some cmd =>
        if cmd = "" then Except.ok (attrs, [Event.getStatus aq])
        else
          match sendMessage cfg (some cloud) codec attrs cmd with
          | Except.error e => Except.error e
          | Except.ok (a', evs) => Except.ok (a', Event.getStatus aq :: evs)

/-- One iteration of the `refresh_status` query loop: derive the actual
query, call the cloud status API, merge a truthy result (notifying
subscribers), otherwise fall back to a locally built query. -/
def refreshOne (cfg : Config) (cloudOpt : Option Cloud)
    (codecOpt : Option Codec) (attrs : Dict) (query : Dict) :
    PyRes (Dict × List Event) :=
  let p := deriveQueryD9 cfg attrs query
  let attrs1 := p.1
  let aq := p.2
  match cloudOpt with
  | none => Except.ok (attrs1, [])
  | some cloud =>
    match cloud.get_device_status aq with
    | Except.error e => Except.error e
    | Except.ok statusOpt =>
      match statusOpt with
      | none => refreshFallback cfg cloud codecOpt attrs1 aq
      | some st =>
        if st.isEmpty then refreshFallback cfg cloud codecOpt attrs1 aq
        else
          let o := parseCloudMessage cfg attrs1 st true
          Except.ok (o.attrs,
            Event.getStatus aq ::
              (if o.notified then [Event.notifyAll o.delta] else []))

/-- The `refresh_status` loop over the configured queries; an exception in
any iteration aborts the loop and propagates. -/
def refreshGo (cfg : Config) (cloudOpt : Option Cloud)
    (codecOpt : Option Codec) : Dict → List Dict → PyRes (Dict × List Event)
  | a, [] => Except.ok (a, [])
  | a, q :: rest =>
    match refreshOne cfg cloudOpt codecOpt a q with
    | Except.error e => Except.error e
    | Except.ok (a', evs) =>
      match refreshGo cfg cloudOpt codecOpt a' rest with
      | Except.error e => Except.error e
      | Except.ok (a'', evs') => Except.ok (a'', evs ++ evs')

/-- `MiedaDevice.refresh_status()`. -/
def refreshStatus (cfg : Config) (cloudOpt : Option Cloud)
    (codecOpt : Option Codec) (attrs : Dict) : PyRes (Dict × List Event) :=
  refreshGo cfg cloudOpt codecOpt attrs cfg.queries

/-- `MiedaDevice._determine_control_status_based_on_running`. -/
def determineControlStatus (running : Value) : String :=
  if pyEq running (Value.vstr "start") then "start" else "pause"

/-- The try-block of the shared send tail of `set_attribute` /
`set_attributes`: ask the codec's `build_control` and, when it yields a
truthy command, do the transparent send; exceptions anywhere inside and
falsy results come out as `none` (fall through to the cloud relay). -/
def tryCodecControl (cfg : Config) (cloudOpt : Option Cloud)
    (codecOpt : Option Codec) (attrs : Dict) (nested : NestedDict) :
    Option (Dict × List Event) :=
  match codecOpt with
  | none => none
  | some codec =>
    match codec.build_control nested attrs with
    | Except.error _ => none
    | Except.ok cmdOpt =>
      match cmdOpt with
      | none => none
      | some cmd =>
        if cmd = "" then none
        else
          match sendMessage cfg cloudOpt codec attrs cmd with
          | Except.error _ => none
          | Except.ok r => some r

/-- The shared send tail of `set_attribute` / `set_attributes`: the codec
attempt above, then the fallback to the cloud relay's
`send_device_control` with the nested payload and the full current store —
the fallback call is not inside a try, so its                exceptions propagate. -/
def controlSend (cfg : Config) (cloudOpt : Option Cloud)
    (codecOpt : Option Codec) (attrs : Dict) (nested : NestedDict) :
    PyRes (Dict × List Event) :=
  match tryCodecControl cfg cloudOpt codecOpt attrs nested with
  | some r => Except.ok r
  | none =>
    match cloudOpt with
    | none => Except.ok (attrs, [])
    | some cloud =>
      match cloud.send_device_control nested attrs with
      | Except.error e => Except.error e
      | Except.ok _ => Except.ok (attrs, [Event.sendControl nested attrs])

/-- Convert the outbound payload and run the send tail, prepending events
already produced (used by both setters; `doSend` is `set_attributes`'
`has_new` gate, always true for `set_attribute`). -/
def finishControl (cfg : Config) (cloudOpt : Option Cloud)
    (codecOpt : Option Codec) (attrs : Dict) (ns : Dict)
    (evs : List Event) (doSend : Bool) : PyRes (Dict × List Event) :=
  if doSend then
    match controlSend cfg cloudOpt codecOpt attrs (convertToNested ns) with
    | Except.error e => Except.error e
    | Except.ok (a', evs') => Except.ok (a', evs ++ evs')
  else Except.ok (attrs, evs)

/-- `MiedaDevice.set_attribute(attribute, value)`.  An unknown name is a
complete no-op.  For `T0xD9` the selection / position branches mutate the
store directly and (for the selection) trigger an immediate refresh; the
re-raised exceptions of that refresh propagate. -/
def setAttribute (cfg : Config) (cloudOpt : Option Cloud)
    (codecOpt : Option Codec) (attrs : Dict) (attrName : String)
    (value : Value) : PyRes (Dict × List Event) :=
  if dcontains attrs attrName then
    let ns0 := cfg.centralized.foldl
      (fun d a => dinsert d a (dgetD attrs a Value.vnull)) []
    let ns := dinsert ns0 attrName value
    if cfg.device_type = 0xD9 then
      if attrName = "db_location_selection" then
        let pr :=
          if pyEq value (Value.vstr "left") then
            (dinsert ns "db_location" (Value.vint 1),
             dinsert attrs "db_location" (Value.vint 1))
          else if pyEq value (Value.vstr "right") then
            (dinsert ns "db_location" (Value.vint 2),
             dinsert attrs "db_location" (Value.vint 2))
          else (ns, attrs)
        let ns1 := dinsert pr.1 "db_location_selection" value
        match refreshStatus cfg cloudOpt codecOpt pr.2 with
        | Except.error e => Except.error e
        | Except.ok (attrs2, evs) =>
          let pr2 :=
            match dget attrs2 "db_running_status" with
            | none => (attrs2, ns1)
            | some r =>
              if r = Value.vnull then (attrs2, ns1)
              else
                let cs := Value.vstr (determineControlStatus r)
                (dinsert attrs2 "db_control_status" cs,
                 dinsert ns1 "db_control_status" cs)
          finishControl cfg cloudOpt codecOpt pr2.1 pr2.2 evs true
      else if attrName = "db_position" then
        if pyEq value (Value.vint 1) then
          finishControl cfg cloudOpt codecOpt attrs ns [] true
        else if pyEq value (Value.vint 0) then
          let cur := dgetD attrs "db_location" (Value.vint 1)
          let newLoc : Value :=
            if pyEq cur (Value.vint 1) then Value.vint 2 else Value.vint 1
          let attrs1 := dinsert attrs "db_location" newLoc
          let ns1 := dinsert ns "db_location" newLoc
          let pr :=
            if pyEq newLoc (Value.vint 1) then
              (dinsert attrs1 "db_location_selection" (Value.vstr "left"),
               dinsert ns1 "db_location_selection" (Value.vstr "left"))
            else if pyEq newLoc (Value.vint 2) then
              (dinsert attrs1 "db_location_selection" (Value.vstr "right"),
               dinsert ns1 "db_location_selection" (Value.vstr "right"))
            else (attrs1, ns1)
          finishControl cfg cloudOpt codecOpt pr.1 pr.2 [] true
        else
          finishControl cfg cloudOpt codecOpt attrs ns [] true
      else
        let dbPos := dgetD attrs "db_position" (Value.vint 1)
        let ns' :=
          if pyEq dbPos (Value.vint 0) then
            let cur := dgetD attrs "db_location" (Value.vint 1)
            dinsert ns "db_location"
              (if pyEq cur (Value.vint 1) then Value.vint 2 else Value.vint 1)
          else if pyEq dbPos (Value.vint 1) then
            dinsert ns "db_location" (dgetD attrs "db_location" (Value.vint 1))
          else ns
        finishControl cfg cloudOpt codecOpt attrs ns' [] true
    else
      finishControl cfg cloudOpt codecOpt attrs ns [] true
  else Except.ok (attrs, [])

/-- `MiedaDevice.set_attributes(attributes)`.  Known names are collected
into the payload (`has_new`); the `T0xD9` block runs on the *input* mapping
regardless of `has_new`, mutating the store and possibly refreshing; the
send tail runs only when `has_new`. -/
def setAttributes (cfg : Config) (cloudOpt : Option Cloud)
    (codecOpt : Option Codec) (attrs : Dict) (m : Dict) :
    PyRes (Dict × List Event) :=
  let ns0 := cfg.centralized.foldl
    (fun d a => dinsert d a (dgetD attrs a Value.vnull)) []
  let hasNew := m.any (fun kv => dcontains attrs kv.1)
  let ns := m.foldl
    (fun d kv => if dcontains attrs kv.1 then dinsert d kv.1 kv.2 else d) ns0
  if cfg.device_type = 0xD9 then
    match dget m "db_location_selection" with
    | some ls =>
      let pr :=
        if pyEq ls (Value.vstr "left") then
          (dinsert ns "db_location" (Value.vint 1),
           dinsert attrs "db_location" (Value.vint 1))
        else if pyEq ls (Value.vstr "right") then
          (dinsert ns "db_location" (Value.vint 2),
           dinsert attrs "db_location" (Value.vint 2))
        else (ns, attrs)
      let ns1 := dinsert pr.1 "db_location_selection" ls
      match refreshStatus cfg cloudOpt codecOpt pr.2 with
      | Except.error e => Except.error e
      | Except.ok (attrs2, evs) =>
        let attrs3 :=
          match dget attrs2 "db_running_status" with
          | none => attrs2
          | some r =>
            if r = Value.vnull then attrs2
            else
              dinsert attrs2 "db_control_status"
                (Value.vstr (determineControlStatus r))
        finishControl cfg cloudOpt codecOpt attrs3 ns1 evs hasNew
    | none =>
      match dget m "db_position" with
      | some pv =>
        if pyEq pv (Value.vint 1) then
          finishControl cfg cloudOpt codecOpt attrs
            (dinsert ns "db_location" (dgetD attrs "db_location" (Value.vint 1)))
            [] hasNew
        else if pyEq pv (Value.vint 0) then
          let cur := dgetD attrs "db_location" (Value.vint 1)
          let newLoc : Value :=
            if pyEq cur (Value.vint 1) then Value.vint 2 else Value.vint 1
          let attrs1 := dinsert attrs "db_location" newLoc
          let ns1 := dinsert ns "db_location" newLoc
          let pr :=
            if pyEq newLoc (Value.vint 1) then
              (dinsert attrs1 "db_location_selection" (Value.vstr "left"),
               dinsert ns1 "db_location_selection" (Value.vstr "left"))
            else if pyEq newLoc (Value.vint 2) then
              (dinsert attrs1 "db_location_selection" (Value.vstr "right"),
               dinsert ns1 "db_location_selection" (Value.vstr "right"))
            else (attrs1, ns1)
          finishControl cfg cloudOpt codecOpt pr.1 pr.2 [] hasNew
        else
          finishControl cfg cloudOpt codecOpt attrs ns [] hasNew
      | none =>
        let dbPos := dgetD attrs "db_position" (Value.vint 1)
        let ns' :=
          if pyEq dbPos (Value.vint 0) then
            let cur := dgetD attrs "db_location" (Value.vint 1)
            dinsert ns "db_location"
              (if pyEq cur (Value.vint 1) then Value.vint 2 else Value.vint 1)
          else if pyEq dbPos (Value.vint 1) then
            dinsert ns "db_location" (dgetD attrs "db_location" (Value.vint 1))
          else ns
        finishControl cfg cloudOpt codecOpt attrs ns' [] hasNew
  else
    finishControl cfg cloudOpt codecOpt attrs ns [] hasNew

/-! ## Helper lemmas about the dictionary model -/

theorem dget_dinsert_self (d : Dict) (k : String) (v : Value) :
    dget (dinsert d k v) k = some v := by
  induction d with
  | nil => simp [dinsert, dget]
  | cons hd tl ih =>
    obtain ⟨k', v'⟩ := hd
    by_cases h : k' = k
    · simp [dinsert, dget, h]
    · simp [dinsert, dget, h, ih]

theorem dget_dinsert_ne (d : Dict) (k' k : String) (v : Value)
    (h : k' ≠ k) : dget (dinsert d k' v) k = dget d k := by
  induction d with
  | nil => simp [dinsert, dget, h]
  | cons hd tl ih =>
    obtain ⟨k'', v''⟩ := hd
    by_cases h2 : k'' = k'
    · simp [dinsert, dget, h2, h]
    · by_cases h3 : k'' = k <;> simp [dinsert, dget, h2, h3, ih, Ne.symm h]

theorem dget_some_mem (d : Dict) (k : String) (v : Value)
    (h : dget d k = some v) : (k, v) ∈ d := by
  induction d with
  | nil => simp [dget] at h
  | cons hd tl ih =>
    obtain ⟨k', v'⟩ := hd
    by_cases h2 : k' = k
    · rw [dget, if_pos h2] at h
      cases h
      simp [h2]
    · rw [dget, if_neg h2] at h
      simp [ih h]

theorem isEmpty_false_of_dget_some (d : Dict) (k : String) (v : Value)
    (h : dget d k = some v) : d.isEmpty = false := by
  cases d with
  | nil => simp [dget] at h
  | cons hd tl => rfl

/-! ## Helper lemmas about the staging passes -/

theorem dget_seedStep_ne (attrs ns : Dict) (kv : String × Value) (a : String)
    (h : kv.1 ≠ a) : dget (seedStep attrs ns kv) a = dget ns a := by
  unfold seedStep
  split
  · exact dget_dinsert_ne ns kv.1 a kv.2 h
  · split
    · exact dget_dinsert_ne ns kv.1 a kv.2 h
    · rfl

theorem seedStep_stage (attrs ns : Dict) (kv : String × Value)
    (h : dget attrs kv.1 = none ∨ dget attrs kv.1 = some Value.vnull) :
    seedStep attrs ns kv = dinsert ns kv.1 kv.2 := by
  unfold seedStep
  rcases h with h | h
  · rw [h]
  · rw [h]
    simp

theorem seedStep_skip (attrs ns : Dict) (kv : String × Value) (w : Value)
    (hw : dget attrs kv.1 = some w) (hwn : w ≠ Value.vnull) :
    seedStep attrs ns kv = ns := by
  unfold seedStep
  rw [hw]
  simp [hwn]

theorem dget_overlayStep_ne (attrs ns : Dict) (kv : String × Value)
    (a : String) (h : kv.1 ≠ a) :
    dget (overlayStep attrs ns kv) a = dget ns a := by
  unfold overlayStep
  split
  · exact dget_dinsert_ne ns kv.1 a kv.2 h
  · split
    · rfl
    · exact dget_dinsert_ne ns kv.1 a kv.2 h

theorem overlayStep_stage_absent (attrs ns : Dict) (kv : String × Value)
    (h : dget attrs kv.1 = none) :
    overlayStep attrs ns kv = dinsert ns kv.1 kv.2 := by
  unfold overlayStep
  rw [h]

theorem dget_foldl_seedStep_not_in (attrs : Dict) (a : String) :
    ∀ (defs ns : Dict), a ∉ defs.map Prod.fst →
      dget (defs.foldl (seedStep attrs) ns) a = dget ns a := by
  intro defs
  induction defs with
  | nil => intro ns _; rfl
  | cons hd tl ih =>
    intro ns hnotin
    rw [List.map_cons, List.mem_cons] at hnotin
    push_neg at hnotin
    rw [List.foldl_cons, ih (seedStep attrs ns hd) hnotin.2]
    exact dget_seedStep_ne attrs ns hd a (fun he => hnotin.1 he.symm)

theorem dget_foldl_overlayStep_not_in (attrs : Dict) (a : String) :
    ∀ (status ns : Dict), a ∉ status.map Prod.fst →
      dget (status.foldl (overlayStep attrs) ns) a = dget ns a := by
  intro status
  induction status with
  | nil => intro ns _; rfl
  | cons hd tl ih =>
    intro ns hnotin
    rw [List.map_cons, List.mem_cons] at hnotin
    push_neg at hnotin
    rw [List.foldl_cons, ih (overlayStep attrs ns hd) hnotin.2]
    exact dget_overlayStep_ne attrs ns hd a (fun he => hnotin.1 he.symm)

theorem dget_foldl_seedStep_of_skip (attrs : Dict) (a : String) (w : Value)
    (hw : dget attrs a = some w) (hwn : w ≠ Value.vnull) :
    ∀ (defs ns : Dict), dget (defs.foldl (seedStep attrs) ns) a = dget ns a := by
  intro defs
  induction defs with
  | nil => intro ns; rfl
  | cons hd tl ih =>
    intro ns
    rw [List.foldl_cons, ih (seedStep attrs ns hd)]
    by_cases h : hd.1 = a
    · rw [seedStep_skip attrs ns hd w (h ▸ hw) hwn]
    · exact dget_seedStep_ne attrs ns hd a h

theorem dget_foldl_seedStep_of_absent (attrs : Dict) (a : String) (D : Value)
    (hw : dget attrs a = none ∨ dget attrs a = some Value.vnull) :
    ∀ (defs ns : Dict), (defs.map Prod.fst).Nodup → dget defs a = some D →
      dget (defs.foldl (seedStep attrs) ns) a = some D := by
  intro defs
  induction defs with
  | nil => intro ns _ habs; simp [dget] at habs
  | cons hd tl ih =>
    intro ns hnodup habs
    rw [List.map_cons, List.nodup_cons] at hnodup
    rw [List.foldl_cons]
    by_cases h : hd.1 = a
    · rw [dget, if_pos h] at habs
      cases habs
      rw [dget_foldl_seedStep_not_in attrs a tl (seedStep attrs ns hd)
        (h ▸ hnodup.1)]
      rw [seedStep_stage attrs ns hd (h ▸ hw), h, dget_dinsert_self]
    · rw [dget, if_neg h] at habs
      exact ih (seedStep attrs ns hd) hnodup.2 habs

theorem dget_foldl_overlayStep_of_get (attrs : Dict) (a : String) (v : Value)
    (habs : dget attrs a = none) :
    ∀ (status ns : Dict), (status.map Prod.fst).Nodup →
      dget status a = some v →
      dget (status.foldl (overlayStep attrs) ns) a = some v := by
  intro status
  induction status with
  | nil => intro ns _ hget; simp [dget] at hget
  | cons hd tl ih =>
    intro ns hnodup hget
    rw [List.map_cons, List.nodup_cons] at hnodup
    rw [List.foldl_cons]
    by_cases h : hd.1 = a
    · rw [dget, if_pos h] at hget
      cases hget
      rw [dget_foldl_overlayStep_not_in attrs a tl (overlayStep attrs ns hd)
        (h ▸ hnodup.1)]
      rw [overlayStep_stage_absent attrs ns hd (h ▸ habs), h, dget_dinsert_self]
    · rw [dget, if_neg h] at hget
      exact ih (overlayStep attrs ns hd) hnodup.2 hget

/-! ## Characterization of the merge for rule-free configurations -/

theorem parseCloudMessage_no_rules (cfg : Config)
    (h : cfg.calculate_get = []) (attrs status : Dict) (update : Bool) :
    parseCloudMessage cfg attrs status update =
      { attrs := attrs, delta := stageDelta cfg attrs status,
        notified := update && !(stageDelta cfg attrs status).isEmpty,
        result := ParseMessageResult.SUCCESS } := by
  unfold parseCloudMessage
  rw [h]
  by_cases he : (stageDelta cfg attrs status).isEmpty
  · simp [he]
  · simp [he]

/-! ## Attribute-store preservation along the session operations, for
configurations with no calculate rules and a device type other than
`T0xD9` (the amended frame condition) -/

theorem sendMessage_attrs_preserved (cfg : Config)
    (h : cfg.calculate_get = []) (cloudOpt : Option Cloud) (codec : Codec)
    (attrs : Dict) (data : String) :
    ∀ x, sendMessage cfg cloudOpt codec attrs data = Except.ok x →
      x.1 = attrs := by
  intro x hx
  unfold sendMessage at hx
  split at hx
  · exact absurd hx (by simp)
  · split at hx
    · simp_all
    · split at hx
      · cases hx; rfl
      · split at hx
        · cases hx; rfl
        · split at hx
          · simp_all
          · split at hx
            · cases hx; rfl
            · split at hx
              · cases hx; rfl
              · rw [parseCloudMessage_no_rules cfg h] at hx
                cases hx; rfl

theorem refreshFallback_attrs_preserved (cfg : Config)
    (h : cfg.calculate_get = []) (cloud : Cloud) (codecOpt : Option Codec)
    (attrs : Dict) (aq : Dict) :
    ∀ x, refreshFallback cfg cloud codecOpt attrs aq = Except.ok x →
      x.1 = attrs := by
  intro x hx
  unfold refreshFallback at hx
  split at hx
  · cases hx; rfl
  · split at hx
    · simp_all
    · split at hx
      · cases hx; rfl
      · split at hx
        · cases hx; rfl
        · split at hx
          · simp_all
          · rename_i a' evs heq
            have := sendMessage_attrs_preserved cfg h (some cloud) _ attrs _
              (a', evs) heq
            cases hx
            exact this

theorem deriveQueryD9_not_d9 (cfg : Config) (h : cfg.device_type ≠ 0xD9)
    (attrs query : Dict) : deriveQueryD9 cfg attrs query = (attrs, query) := by
  unfold deriveQueryD9
  rw [if_neg h]

theorem refreshOne_attrs_preserved (cfg : Config)
    (h : cfg.calculate_get = []) (h9 : cfg.device_type ≠ 0xD9)
    (cloudOpt : Option Cloud) (codecOpt : Option Codec)
    (attrs query : Dict) :
    ∀ x, refreshOne cfg cloudOpt codecOpt attrs query = Except.ok x →
      x.1 = attrs := by
  intro x hx
  unfold refreshOne at hx
  rw [deriveQueryD9_not_d9 cfg h9] at hx
  simp only [] at hx
  split at hx
  · cases hx; rfl
  · split at hx
    · simp_all
    · split at hx
      · exact refreshFallback_attrs_preserved cfg h _ codecOpt attrs _ x hx
      · split at hx
        · exact refreshFallback_attrs_preserved cfg h _ codecOpt attrs _ x hx
        · rw [parseCloudMessage_no_rules cfg h] at hx
          cases hx; rfl

theorem refreshGo_attrs_preserved (cfg : Config)
    (h : cfg.calculate_get = []) (h9 : cfg.device_type ≠ 0xD9)
    (cloudOpt : Option Cloud) (codecOpt : Option Codec) :
    ∀ (qs : List Dict) (attrs : Dict) x,
      refreshGo cfg cloudOpt codecOpt attrs qs = Except.ok x →
      x.1 = attrs := by
  intro qs
  induction qs with
  | nil => intro attrs x hx; cases hx; rfl
  | cons q rest ih =>
    intro attrs x hx
    unfold refreshGo at hx
    split at hx
    · exact absurd hx (by simp)
    · rename_i a' evs heq
      split at hx
      · exact absurd hx (by simp)
      · rename_i a'' evs' heq2
        have h1 := refreshOne_attrs_preserved cfg h h9 cloudOpt codecOpt
          attrs q (a', evs) heq
        have h2 := ih a' (a'', evs') heq2
        cases hx
        simp only at h1 h2
        rw [h2, h1]

theorem refreshStatus_attrs_preserved (cfg : Config)
    (h : cfg.calculate_get = []) (h9 : cfg.device_type ≠ 0xD9)
    (cloudOpt : Option Cloud) (codecOpt : Option Codec) (attrs : Dict) :
    ∀ x, refreshStatus cfg cloudOpt codecOpt attrs = Except.ok x →
      x.1 = attrs := by
  intro x hx
  exact refreshGo_attrs_preserved cfg h h9 cloudOpt codecOpt cfg.queries
    attrs x hx

theorem tryCodecControl_attrs_preserved (cfg : Config)
    (h : cfg.calculate_get = []) (cloudOpt : Option Cloud)
    (codecOpt : Option Codec) (attrs : Dict) (nested : NestedDict) :
    ∀ r, tryCodecControl cfg cloudOpt codecOpt attrs nested = some r →
      r.1 = attrs := by
  intro r hr
  unfold tryCodecControl at hr
  split at hr
  · simp_all
  · split at hr
    · simp_all
    · split at hr
      · simp_all
      · split at hr
        · simp_all
        · split at hr
          · simp_all
          · rename_i r2 heq
            simp only [Option.some.injEq] at hr
            subst hr
            exact sendMessage_attrs_preserved cfg h cloudOpt _ attrs _ _ heq

theorem controlSend_attrs_preserved (cfg : Config)
    (h : cfg.calculate_get = []) (cloudOpt : Option Cloud)
    (codecOpt : Option Codec) (attrs : Dict) (nested : NestedDict) :
    ∀ x, controlSend cfg cloudOpt codecOpt attrs nested = Except.ok x →
      x.1 = attrs := by
  intro x hx
  unfold controlSend at hx
  split at hx
  · rename_i r heq
    simp only [Except.ok.injEq] at hx
    subst hx
    exact tryCodecControl_attrs_preserved cfg h cloudOpt codecOpt attrs
      nested _ heq
  · split at hx
    · cases hx; rfl
    · split at hx
      · simp_all
      · cases hx; rfl

theorem finishControl_attrs_preserved (cfg : Config)
    (h : cfg.calculate_get = []) (cloudOpt : Option Cloud)
    (codecOpt : Option Codec) (attrs : Dict) (ns : Dict) (evs : List Event)
    (doSend : Bool) :
    ∀ x, finishControl cfg cloudOpt codecOpt attrs ns evs doSend =
        Except.ok x → x.1 = attrs := by
  intro x hx
  unfold finishControl at hx
  split at hx
  · split at hx
    · simp_all
    · rename_i a' evs' heq
      have := controlSend_attrs_preserved cfg h cloudOpt codecOpt attrs _
        (a', evs') heq
      cases hx
      exact this
  · cases hx; rfl

theorem setAttribute_attrs_preserved (cfg : Config)
    (h : cfg.calculate_get = []) (h9 : cfg.device_type ≠ 0xD9)
    (cloudOpt : Option Cloud) (codecOpt : Option Codec) (attrs : Dict)
    (attrName : String) (value : Value) :
    ∀ x, setAttribute cfg cloudOpt codecOpt attrs attrName value =
        Except.ok x → x.1 = attrs := by
  intro x hx
  unfold setAttribute at hx
  split at hx
  · simp only [if_neg h9] at hx
    exact finishControl_attrs_preserved cfg h cloudOpt codecOpt attrs _ _ _
      x hx
  · cases hx; rfl

theorem setAttributes_attrs_preserved (cfg : Config)
    (h : cfg.calculate_get = []) (h9 : cfg.device_type ≠ 0xD9)
    (cloudOpt : Option Cloud) (codecOpt : Option Codec) (attrs : Dict)
    (m : Dict) :
    ∀ x, setAttributes cfg cloudOpt codecOpt attrs m = Except.ok x →
      x.1 = attrs := by
  intro x hx
  unfold setAttributes at hx
  simp only [if_neg h9] at hx
  exact finishControl_attrs_preserved cfg h cloudOpt codecOpt attrs _ _ _
    x hx

/-! ## Concrete fixtures used by witnesses and counterexamples -/

/-- A plain (non-`T0xD9`) configuration with no rules, defaults or
centralized names: one empty query, as the constructor installs. -/
def cfgPlain : Config :=
  { device_type := 0xAC, queries := [[]], centralized := [],
    calculate_get := [], default_values := [] }

/-- A constructor-seeded attribute store for the plain device. -/
def attrs0 : Dict :=
  mkInitialAttributes 0xAC (Value.vstr "000000P99921V484") (Value.vstr "38b277f9")
    (Value.vint 10)

/-- The plain configuration with one default value for `"a"`. -/
def cfgDefault : Config :=
  { cfgPlain with default_values := [("a", Value.vint 5)] }

/-- The plain configuration with the spec's example rule `a = [b]*2`. -/
def cfgRuleMul : Config :=
  { cfgPlain with
    calculate_get := [{ lvalue := "a",
                        rvalue := Expr.mul (Expr.ref "b") (Expr.lit 2) }] }

/-- The plain configuration with a two-reference rule `a = [b]+[d]`. -/
def cfgRuleAdd : Config :=
  { cfgPlain with
    calculate_get := [{ lvalue := "a",
                        rvalue := Expr.add (Expr.ref "b") (Expr.ref "d") }] }

/-- A `T0xD9` (dual-chamber washer) configuration. -/
def cfgD9 : Config :=
  { device_type := 0xD9, queries := [[]], centralized := [],
    calculate_get := [], default_values := [] }

/-- A `T0xD9` store as the setup code seeds it (selection label present). -/
def attrsD9 : Dict :=
  dinsert (mkInitialAttributes 0xD9 Value.vnull Value.vnull Value.vnull)
    "db_location_selection" (Value.vstr "left")

/-- A `T0xD9` store with only the constructor identity fields. -/
def attrsD9bare : Dict :=
  mkInitialAttributes 0xD9 Value.vnull Value.vnull Value.vnull

/-- A cloud whose status call returns `None`, whose control call succeeds
and whose transparent send returns `None`. -/
def cloudNoStatus : Cloud :=
  { get_device_status := fun _ => Except.ok none,
    send_device_control := fun _ _ => Except.ok (),
    send_cloud := fun _ => Except.ok none }

/-- A cloud whose status call raises and whose control call succeeds. -/
def cloudRaiseStatus : Cloud :=
  { get_device_status := fun _ => Except.error (),
    send_device_control := fun _ _ => Except.ok (),
    send_cloud := fun _ => Except.ok none }

/-- A codec that builds queries but supports no control build. -/
def codecQueryOnly : Codec :=
  { build_query := fun _ => Except.ok (some "aa55"),
    build_control := fun _ _ => Except.ok none,
    decode_status := fun _ => Except.ok none }

/-- A codec all of whose operations raise. -/
def codecRaise : Codec :=
  { build_query := fun _ => Except.error (),
    build_control := fun _ _ => Except.error (),
    decode_status := fun _ => Except.error () }

/-! ## Claim C10 -/

/-- C10: for every input status mapping, `_parse_cloud_message` returns
`ParseMessageResult.SUCCESS` (never ERROR or PADDING): the function has a
single return statement.  Consequently the branch of `_send_message` that
compares the parse result of a decoded cloud reply against
`ParseMessageResult.ERROR` can never be taken: the comparison is false for
every input. -/
theorem C10_theorem (cfg : Config) (attrs status : Dict) (update : Bool) :
    (parseCloudMessage cfg attrs status update).result
      = ParseMessageResult.SUCCESS
    ∧ ((parseCloudMessage cfg attrs status update).result
        == ParseMessageResult.ERROR) = false := by
  have h : (parseCloudMessage cfg attrs status update).result
      = ParseMessageResult.SUCCESS := by
    unfold parseCloudMessage
    by_cases he : (stageDelta cfg attrs status).isEmpty
    · simp [he]
    · simp [he]
  exact ⟨h, by rw [h]; rfl⟩

/-! ## Claim C1 -/

/-- C1 counterexample: the claim asserts that after the merge every key
staged in the delta is present in the attribute store with its delta
value.  On the cloud merge path the store-commit statements are commented
out: merging `{"temperature": 25}` into a freshly seeded store stages the
key in the delta and notifies, yet the store afterwards does not contain
`"temperature"` at all. -/
theorem C1_counterexample :
    (parseCloudMessage cfgPlain attrs0 [("temperature", Value.vint 25)]
        true).delta = [("temperature", Value.vint 25)]
    ∧ (parseCloudMessage cfgPlain attrs0 [("temperature", Value.vint 25)]
        true).notified = true
    ∧ dget (parseCloudMessage cfgPlain attrs0 [("temperature", Value.vint 25)]
        true).attrs "temperature" = none := by
  refine ⟨rfl, rfl, rfl⟩

/-- C1 (amended): for every incoming status mapping, the merge computes the
delta (staged defaults overlaid by differing incoming keys) and, when the
delta is non-empty, invokes every registered subscriber exactly once with
exactly that delta — but it does not apply the delta to the attribute
store: in the absence of calculate rules (the only store writers inside
the merge) the store is left completely unchanged. -/
theorem C1_theorem (cfg : Config) (attrs status : Dict)
    (subscribers : List Nat) (h : cfg.calculate_get = []) :
    (parseCloudMessage cfg attrs status true).attrs = attrs
    ∧ (parseCloudMessage cfg attrs status true).delta
        = stageDelta cfg attrs status
    ∧ ((parseCloudMessage cfg attrs status true).notified = true
        ↔ stageDelta cfg attrs status ≠ [])
    ∧ (mergeNotifications subscribers (parseCloudMessage cfg attrs status true)).map Prod.fst
        = (if (parseCloudMessage cfg attrs status true).notified then subscribers else [])
    ∧ ∀ p ∈ mergeNotifications subscribers (parseCloudMessage cfg attrs status true),
        p.2 = (parseCloudMessage cfg attrs status true).delta := by
  rw [parseCloudMessage_no_rules cfg h]
  refine ⟨rfl, rfl, ?_, ?_, ?_⟩
  · simp [List.isEmpty_iff]
  · unfold mergeNotifications updateAll
    split
    · simp [Function.comp_def]
    · simp
  · unfold mergeNotifications updateAll
    split
    · simp
    · simp

/-- Witness for C1 at a concrete merge. -/
theorem C1_witness :
    cfgPlain.calculate_get = []
    ∧ (parseCloudMessage cfgPlain attrs0 [("temperature", Value.vint 25)]
        true).attrs = attrs0 :=
  ⟨rfl, (C1_theorem cfgPlain attrs0 [("temperature", Value.vint 25)]
    [0, 1] rfl).1⟩

/-! ## Claim C2 -/

/-- C2 counterexample: merging the identical mapping `{"a": 1}` twice does
not yield an empty second delta: because the first merge did not commit
`"a"` to the store, the second merge stages `{"a": 1}` again and notifies
again. -/
theorem C2_counterexample :
    (parseCloudMessage cfgPlain
        (parseCloudMessage cfgPlain attrs0 [("a", Value.vint 1)] true).attrs
        [("a", Value.vint 1)] true).delta = [("a", Value.vint 1)]
    ∧ (parseCloudMessage cfgPlain
        (parseCloudMessage cfgPlain attrs0 [("a", Value.vint 1)] true).attrs
        [("a", Value.vint 1)] true).notified = true := by
  refine ⟨rfl, rfl⟩

/-- C2 (amended): for a session without calculate rules, merging an
identical status mapping twice yields on the second merge exactly the same
outcome as the first (same delta, same notification) — not an empty delta:
the cloud merge does not commit incoming values, so the second delta is
empty only when the first already was. -/
theorem C2_theorem (cfg : Config) (attrs status : Dict)
    (h : cfg.calculate_get = []) :
    parseCloudMessage cfg
        (parseCloudMessage cfg attrs status true).attrs status true
      = parseCloudMessage cfg attrs status true := by
  have h1 : (parseCloudMessage cfg attrs status true).attrs = attrs := by
    rw [parseCloudMessage_no_rules cfg h]
  rw [h1]

/-- Witness for C2 at a concrete double merge. -/
theorem C2_witness :
    cfgPlain.calculate_get = []
    ∧ parseCloudMessage cfgPlain
        (parseCloudMessage cfgPlain attrs0 [("a", Value.vint 1)] true).attrs
        [("a", Value.vint 1)] true
      = parseCloudMessage cfgPlain attrs0 [("a", Value.vint 1)] true :=
  ⟨rfl, C2_theorem cfgPlain attrs0 [("a", Value.vint 1)] rfl⟩

/-! ## Claim C6 -/

/-- C6 counterexample: with default `a = 5`, the first merge reports the
real value `a = 7` (which overrides the staged default inside that merge),
but because merges do not commit to the store, the next merge of the
unrelated status `{"c": 1}` stages the default `5` for `a` again — the
reported value does not permanently override the default. -/
theorem C6_counterexample :
    dget (parseCloudMessage cfgDefault attrs0 [("a", Value.vint 7)]
        true).delta "a" = some (Value.vint 7)
    ∧ dget (parseCloudMessage cfgDefault
        (parseCloudMessage cfgDefault attrs0 [("a", Value.vint 7)] true).attrs
        [("c", Value.vint 1)] true).delta "a" = some (Value.vint 5) := by
  refine ⟨rfl, rfl⟩

/-- C6 (amended): in a rule-free session, a merge stages the configured
default `D` for an attribute exactly while that attribute is absent from
the store or stored as `None`; an incoming reported value in the same merge
overrides the staged default; and an attribute stored with a real (non-
`None`) value and not reported is never staged.  However, since merges do
not commit incoming values to the store, a reported value does not
permanently override the default for later merges. -/
theorem C6_theorem (cfg : Config) (attrs status : Dict) (a b : String)
    (D : Value) (h : cfg.calculate_get = [])
    (hD : dget cfg.default_values a = some D)
    (hnodupD : (cfg.default_values.map Prod.fst).Nodup)
    (habs : dget attrs a = none ∨ dget attrs a = some Value.vnull) :
    (a ∉ status.map Prod.fst →
      dget (parseCloudMessage cfg attrs status true).delta a = some D)
    ∧ (∀ v, (status.map Prod.fst).Nodup → dget status a = some v →
        dget attrs a = none →
        dget (parseCloudMessage cfg attrs status true).delta a = some v)
    ∧ (∀ w, dget attrs b = some w → w ≠ Value.vnull →
        b ∉ status.map Prod.fst →
        dget (parseCloudMessage cfg attrs status true).delta b = none) := by
  rw [parseCloudMessage_no_rules cfg h]
  refine ⟨?_, ?_, ?_⟩
  · intro hnost
    show dget (stageDelta cfg attrs status) a = some D
    unfold stageDelta overlayStatus seedDefaults
    rw [dget_foldl_overlayStep_not_in attrs a status _ hnost]
    exact dget_foldl_seedStep_of_absent attrs a D habs cfg.default_values []
      hnodupD hD
  · intro v hnodupS hv habs2
    show dget (stageDelta cfg attrs status) a = some v
    unfold stageDelta overlayStatus
    exact dget_foldl_overlayStep_of_get attrs a v habs2 status _ hnodupS hv
  · intro w hw hwn hnost
    show dget (stageDelta cfg attrs status) b = none
    unfold stageDelta overlayStatus seedDefaults
    rw [dget_foldl_overlayStep_not_in attrs b status _ hnost]
    rw [dget_foldl_seedStep_of_skip attrs b w hw hwn cfg.default_values []]
    rfl

/-- Witness for C6 at a concrete merge of an unrelated status. -/
theorem C6_witness :
    dget (parseCloudMessage cfgDefault attrs0 [("c", Value.vint 1)]
        true).delta "a" = some (Value.vint 5)
    ∧ dget (parseCloudMessage cfgDefault attrs0 [("c", Value.vint 1)]
        true).delta "sn" = none :=
  ⟨(C6_theorem cfgDefault attrs0 [("c", Value.vint 1)] "a" "sn"
      (Value.vint 5) rfl rfl (by decide) (Or.inl (by decide))).1 (by decide),
   (C6_theorem cfgDefault attrs0 [("c", Value.vint 1)] "a" "sn"
      (Value.vint 5) rfl rfl (by decide) (Or.inl (by decide))).2.2
     (Value.vstr "000000P99921V484") (by decide) (by decide) (by decide)⟩

/-! ## Claim C7 -/

theorem parse_single_rule (cfg : Config) (r : CalcRule)
    (hr : cfg.calculate_get = [r]) (attrs status : Dict) (update : Bool)
    (hne : (stageDelta cfg attrs status).isEmpty = false) :
    parseCloudMessage cfg attrs status update =
      { attrs := (applyCalcRule (attrs, stageDelta cfg attrs status) r).1,
        delta := (applyCalcRule (attrs, stageDelta cfg attrs status) r).2,
        notified := update, result := ParseMessageResult.SUCCESS } := by
  unfold parseCloudMessage
  rw [hr]
  simp [hne]

theorem applyCalcRule_fires (st : Dict × Dict) (r : CalcRule) (v : Value)
    (hf : st.2.any
      (fun kv => strFind r.rvalue.render ("[" ++ kv.1 ++ "]")) = true)
    (hv : r.rvalue.eval st.2 = some v) :
    (applyCalcRule st r).2 = dinsert st.2 r.lvalue v := by
  unfold applyCalcRule
  simp only [hf, if_true, hv]

theorem applyCalcRule_nofire (st : Dict × Dict) (r : CalcRule)
    (hf : st.2.any
      (fun kv => strFind r.rvalue.render ("[" ++ kv.1 ++ "]")) = false) :
    applyCalcRule st r = st := by
  unfold applyCalcRule
  simp only [hf]
  simp

/-- C7 counterexample: the claim says a rule fires — its lvalue is
recomputed and staged into the delta — as soon as one attribute referenced
by its rvalue is in the delta.  With the rule `a = [b]+[d]` and a merge
whose delta contains `b` (referenced: the rendered rvalue contains
`"[b]"`) but not `d`, the generated delta-side assignment raises a
`KeyError` on `d`, which is caught, so `a` is *not* staged. -/
theorem C7_counterexample :
    strFind (Expr.render (Expr.add (Expr.ref "b") (Expr.ref "d"))) "[b]"
      = true
    ∧ dget (parseCloudMessage cfgRuleAdd [] [("b", Value.vint 1)]
        true).delta "b" = some (Value.vint 1)
    ∧ dget (parseCloudMessage cfgRuleAdd [] [("b", Value.vint 1)]
        true).delta "a" = none := by
  refine ⟨rfl, rfl, rfl⟩

/-- C7 (amended): a calculate rule is attempted in a merge cycle iff the
rendered rvalue contains `"[s]"` for some key `s` of that cycle's delta,
and its lvalue is staged into the delta only when the rvalue additionally
evaluates over the delta alone.  For the claim's single-reference example
`a = [b]*2` this coincides with the claimed behaviour: a merge whose delta
maps `b` to an integer `n` stages `a = n*2`, and a merge whose delta
contains only the unrelated attribute `c` leaves `a` and the store
untouched. -/
theorem C7_theorem (attrs status attrs2 status2 : Dict) (n : Int)
    (v : Value)
    (h1 : dget (stageDelta cfgRuleMul attrs status) "b"
      = some (Value.vint n))
    (h2 : stageDelta cfgRuleMul attrs2 status2 = [("c", v)]) :
    dget (parseCloudMessage cfgRuleMul attrs status true).delta "a"
      = some (Value.vint (n * 2))
    ∧ (parseCloudMessage cfgRuleMul attrs2 status2 true).delta = [("c", v)]
    ∧ dget (parseCloudMessage cfgRuleMul attrs2 status2 true).delta "a"
      = none
    ∧ (parseCloudMessage cfgRuleMul attrs2 status2 true).attrs = attrs2 := by
  have hrule : cfgRuleMul.calculate_get =
      [{ lvalue := "a", rvalue := Expr.mul (Expr.ref "b") (Expr.lit 2) }] :=
    rfl
  have hne1 : (stageDelta cfgRuleMul attrs status).isEmpty = false :=
    isEmpty_false_of_dget_some _ _ _ h1
  have hne2 : (stageDelta cfgRuleMul attrs2 status2).isEmpty = false := by
    rw [h2]
    rfl
  have hfire : (stageDelta cfgRuleMul attrs status).any
      (fun kv => strFind (Expr.mul (Expr.ref "b") (Expr.lit 2)).render
        ("[" ++ kv.1 ++ "]")) = true := by
    rw [List.any_eq_true]
    exact ⟨("b", Value.vint n), dget_some_mem _ _ _ h1, by rfl⟩
  have heval : (Expr.mul (Expr.ref "b") (Expr.lit 2)).eval
      (stageDelta cfgRuleMul attrs status) = some (Value.vint (n * 2)) := by
    simp [Expr.eval, h1, toPyInt]
  have hnofire : (stageDelta cfgRuleMul attrs2 status2).any
      (fun kv => strFind (Expr.mul (Expr.ref "b") (Expr.lit 2)).render
        ("[" ++ kv.1 ++ "]")) = false := by
    rw [h2]
    rfl
  refine ⟨?_, ?_, ?_, ?_⟩
  · rw [parse_single_rule cfgRuleMul _ hrule attrs status true hne1]
    show dget (applyCalcRule (attrs, stageDelta cfgRuleMul attrs status)
      { lvalue := "a", rvalue := Expr.mul (Expr.ref "b") (Expr.lit 2) }).2
      "a" = some (Value.vint (n * 2))
    rw [applyCalcRule_fires _ _ (Value.vint (n * 2)) hfire heval]
    exact dget_dinsert_self _ _ _
  · rw [parse_single_rule cfgRuleMul _ hrule attrs2 status2 true hne2]
    show (applyCalcRule (attrs2, stageDelta cfgRuleMul attrs2 status2)
      { lvalue := "a", rvalue := Expr.mul (Expr.ref "b") (Expr.lit 2) }).2
      = [("c", v)]
    rw [applyCalcRule_nofire _ _ hnofire]
    exact h2
  · rw [parse_single_rule cfgRuleMul _ hrule attrs2 status2 true hne2]
    show dget (applyCalcRule (attrs2, stageDelta cfgRuleMul attrs2 status2)
      { lvalue := "a", rvalue := Expr.mul (Expr.ref "b") (Expr.lit 2) }).2
      "a" = none
    rw [applyCalcRule_nofire _ _ hnofire]
    show dget (stageDelta cfgRuleMul attrs2 status2) "a" = none
    rw [h2, dget, if_neg (by decide)]
    rfl
  · rw [parse_single_rule cfgRuleMul _ hrule attrs2 status2 true hne2]
    show (applyCalcRule (attrs2, stageDelta cfgRuleMul attrs2 status2)
      { lvalue := "a", rvalue := Expr.mul (Expr.ref "b") (Expr.lit 2) }).1
      = attrs2
    rw [applyCalcRule_nofire _ _ hnofire]

/-- Witness for C7 at concrete merges. -/
theorem C7_witness :
    dget (parseCloudMessage cfgRuleMul attrs0 [("b", Value.vint 3)]
        true).delta "a" = some (Value.vint 6)
    ∧ (parseCloudMessage cfgRuleMul attrs0 [("c", Value.vint 1)]
        true).delta = [("c", Value.vint 1)] :=
  ⟨(C7_theorem attrs0 [("b", Value.vint 3)] attrs0 [("c", Value.vint 1)] 3
      (Value.vint 1) (by decide) (by decide)).1,
   (C7_theorem attrs0 [("b", Value.vint 3)] attrs0 [("c", Value.vint 1)] 3
      (Value.vint 1) (by decide) (by decide)).2.1⟩

/-! ## Claim C3 -/

/-- C3: fallback chain.  (a) In a `refresh_status` iteration, when the
cloud status call returns no data, the session asks the codec to build a
local query from the derived query parameters and sends the resulting
command (over the cloud transparent channel that `_send_message` uses).
(b) In `set_attribute`, when the codec's `build_control` returns no result,
the session falls back to the cloud relay's `send_device_control`, passing
the nested control payload and the full current attribute store as
context. -/
theorem C3_theorem (cfg : Config) (cloud : Cloud) (codec : Codec)
    (attrs query : Dict) (cmd : String) (attrName : String) (value : Value)
    (hgs : cloud.get_device_status (deriveQueryD9 cfg attrs query).2
      = Except.ok none)
    (hbq : codec.build_query (deriveQueryD9 cfg attrs query).2
      = Except.ok (some cmd))
    (hcmd : cmd ≠ "")
    (hsc : cloud.send_cloud cmd = Except.ok none)
    (hbc : ∀ n a, codec.build_control n a = Except.ok none)
    (hsdc : ∀ n a, cloud.send_device_control n a = Except.ok ())
    (hknown : dcontains attrs attrName = true)
    (h9 : cfg.device_type ≠ 0xD9) :
    refreshOne cfg (some cloud) (some codec) attrs query
      = Except.ok ((deriveQueryD9 cfg attrs query).1,
          [Event.getStatus (deriveQueryD9 cfg attrs query).2,
           Event.cloudSend cmd])
    ∧ ∃ nested : NestedDict,
        setAttribute cfg (some cloud) (some codec) attrs attrName value
          = Except.ok (attrs, [Event.sendControl nested attrs]) := by
  constructor
  · unfold refreshOne
    dsimp only
    rw [hgs]
    dsimp only
    unfold refreshFallback
    dsimp only
    rw [hbq]
    dsimp only
    rw [if_neg hcmd]
    unfold sendMessage
    dsimp only
    rw [hsc]
  · refine ⟨convertToNested (dinsert (cfg.centralized.foldl
      (fun d a => dinsert d a (dgetD attrs a Value.vnull)) []) attrName
      value), ?_⟩
    unfold setAttribute
    rw [if_pos hknown, if_neg h9]
    unfold finishControl
    rw [if_pos rfl]
    unfold controlSend tryCodecControl
    dsimp only
    rw [hbc]
    dsimp only
    rw [hsdc]
    dsimp only
    rw [List.nil_append]

/-- Witness for C3 with a no-status cloud and a query-only codec. -/
theorem C3_witness :
    refreshOne cfgPlain (some cloudNoStatus) (some codecQueryOnly) attrs0 []
      = Except.ok ((deriveQueryD9 cfgPlain attrs0 []).1,
          [Event.getStatus (deriveQueryD9 cfgPlain attrs0 []).2,
           Event.cloudSend "aa55"])
    ∧ ∃ nested : NestedDict,
        setAttribute cfgPlain (some cloudNoStatus) (some codecQueryOnly)
            attrs0 "sn" (Value.vstr "NEW")
          = Except.ok (attrs0, [Event.sendControl nested attrs0]) :=
  C3_theorem cfgPlain cloudNoStatus codecQueryOnly attrs0 [] "aa55" "sn"
    (Value.vstr "NEW") rfl rfl (by decide) rfl (fun _ _ => rfl)
    (fun _ _ => rfl) (by decide) (by decide)

/-! ## Claim C4 -/

/-- C4 counterexample: for device type `0xD9`, `set_attribute` with the
selection label mutates the store directly: with no cloud and no codec
attached (so nothing is sent and no status merge can occur — the event
list is empty), the call still writes `db_location = 1` into the store,
which did not contain `db_location` before. -/
theorem C4_counterexample :
    setAttribute cfgD9 none none attrsD9 "db_location_selection"
        (Value.vstr "left")
      = Except.ok (dinsert attrsD9 "db_location" (Value.vint 1), [])
    ∧ dget attrsD9 "db_location" = none := by
  refine ⟨rfl, rfl⟩

/-- C4 (amended): for every device type other than `0xD9` and every
rule-free session, the attribute store is never mutated by `set_attribute`,
`set_attributes` or `refresh_status` at all (merges compute deltas but do
not commit them; calculate rules are the only merge-time store writers).
For `0xD9` the dual-chamber derivation writes `db_location`,
`db_location_selection` and `db_control_status` into the store directly,
outside any merge, as the counterexample shows. -/
theorem C4_theorem (cfg : Config) (cloudOpt : Option Cloud)
    (codecOpt : Option Codec) (attrs m : Dict) (attrName : String)
    (value : Value) (h : cfg.calculate_get = [])
    (h9 : cfg.device_type ≠ 0xD9) :
    (∀ x, setAttribute cfg cloudOpt codecOpt attrs attrName value
        = Except.ok x → x.1 = attrs)
    ∧ (∀ x, setAttributes cfg cloudOpt codecOpt attrs m = Except.ok x →
        x.1 = attrs)
    ∧ (∀ x, refreshStatus cfg cloudOpt codecOpt attrs = Except.ok x →
        x.1 = attrs) :=
  ⟨setAttribute_attrs_preserved cfg h h9 cloudOpt codecOpt attrs attrName
      value,
   setAttributes_attrs_preserved cfg h h9 cloudOpt codecOpt attrs m,
   refreshStatus_attrs_preserved cfg h h9 cloudOpt codecOpt attrs⟩

/-- Witness for C4 at a concrete non-`0xD9` call. -/
theorem C4_witness :
    ((attrs0, ([] : List Event)).1 = attrs0)
    ∧ cfgPlain.calculate_get = [] ∧ cfgPlain.device_type ≠ 0xD9 :=
  ⟨(C4_theorem cfgPlain none none attrs0 [] "sn" (Value.vstr "S2") rfl
      (by decide)).1 (attrs0, []) rfl,
   rfl, by decide⟩

/-! ## Claim C5 -/

/-- C5 counterexample: an exception raised by the cloud relay's status call
during `refresh_status` is not absorbed: there is no try/except around the
cloud call, so the public operation itself raises. -/
theorem C5_counterexample :
    refreshStatus cfgPlain (some cloudRaiseStatus) none attrs0
      = Except.error () := by
  rfl

/-- C5 (amended): exceptions raised by the codec's `build_control` inside
`set_attribute`/`set_attributes` are absorbed and converted into the cloud
relay fallback, with the attribute store unchanged by the failure; but
exceptions from cloud relay calls are not absorbed: a raising
`get_device_status` propagates out of the refresh iteration (and thus out
of `refresh_status`). -/
theorem C5_theorem (cfg : Config) (cloud : Cloud) (codec : Codec)
    (codecOpt : Option Codec) (attrs : Dict) (nested : NestedDict)
    (query : Dict)
    (hbc : codec.build_control nested attrs = Except.error ())
    (hsdc : cloud.send_device_control nested attrs = Except.ok ())
    (hgs : cloud.get_device_status (deriveQueryD9 cfg attrs query).2
      = Except.error ()) :
    controlSend cfg (some cloud) (some codec) attrs nested
      = Except.ok (attrs, [Event.sendControl nested attrs])
    ∧ refreshOne cfg (some cloud) codecOpt attrs query
      = Except.error () := by
  constructor
  · unfold controlSend tryCodecControl
    dsimp only
    rw [hbc]
    dsimp only
    rw [hsdc]
  · unfold refreshOne
    dsimp only
    rw [hgs]

/-- Witness for C5 with a raising codec and a status-raising cloud. -/
theorem C5_witness :
    controlSend cfgPlain (some cloudRaiseStatus) (some codecRaise) attrs0 []
      = Except.ok (attrs0, [Event.sendControl [] attrs0])
    ∧ refreshOne cfgPlain (some cloudRaiseStatus) none attrs0 []
      = Except.error () :=
  C5_theorem cfgPlain cloudRaiseStatus codecRaise none attrs0 [] [] rfl rfl
    rfl

/-! ## Claim C8 -/

/-- C8 counterexample: on a `T0xD9` device, `set_attributes` with a mapping
containing only the unknown name `db_location_selection` (absent from the
store) is not a no-op: the `T0xD9` block runs on the input mapping before
the `has_new` gate, writing `db_location = 1` into the store (and
triggering a refresh attempt). -/
theorem C8_counterexample :
    dcontains attrsD9bare "db_location_selection" = false
    ∧ setAttributes cfgD9 none none attrsD9bare
        [("db_location_selection", Value.vstr "left")]
      = Except.ok (dinsert attrsD9bare "db_location" (Value.vint 1), []) := by
  refine ⟨rfl, rfl⟩

/-- C8 (amended): `set_attribute` rejects an unknown attribute name as a
complete no-op for every device type, and `set_attributes` does so for
every device type other than `0xD9`: no exception, no outward calls, store
unchanged.  On `0xD9`, `set_attributes` reacts to `db_location_selection`
or `db_position` keys of the input mapping even when they are unknown
names, as the counterexample shows. -/
theorem C8_theorem (cfg : Config) (cloudOpt : Option Cloud)
    (codecOpt : Option Codec) (attrs m : Dict) (attrName : String)
    (value : Value)
    (hunk : dcontains attrs attrName = false)
    (hall : ∀ kv ∈ m, dcontains attrs kv.1 = false) :
    setAttribute cfg cloudOpt codecOpt attrs attrName value
      = Except.ok (attrs, [])
    ∧ (cfg.device_type ≠ 0xD9 →
        setAttributes cfg cloudOpt codecOpt attrs m
          = Except.ok (attrs, [])) := by
  constructor
  · unfold setAttribute
    rw [if_neg (by rw [hunk]; exact Bool.false_ne_true)]
  · intro h9
    unfold setAttributes
    have hany : (m.any fun kv => dcontains attrs kv.1) = false := by
      rw [List.any_eq_false]
      intro kv hkv
      simp [hall kv hkv]
    rw [if_neg h9]
    rw [hany]
    unfold finishControl
    rw [if_neg Bool.false_ne_true]

/-- Witness for C8 at concrete unknown names: the `set_attribute` half on a
`T0xD9` device, the `set_attributes` half on a plain device. -/
theorem C8_witness :
    setAttribute cfgD9 none none attrsD9bare "zz" (Value.vint 1)
      = Except.ok (attrsD9bare, [])
    ∧ setAttributes cfgPlain none none attrs0 [("zz", Value.vint 1)]
      = Except.ok (attrs0, []) :=
  ⟨(C8_theorem cfgD9 none none attrsD9bare [] "zz" (Value.vint 1)
      (by decide) (by decide)).1,
   (C8_theorem cfgPlain none none attrs0 [("zz", Value.vint 1)] "zz"
      (Value.vint 1) (by decide) (by decide)).2 (by decide)⟩

/-! ## Claim C9 -/

/-- C9: dual-chamber query derivation in `refresh_status` for device type
`0xD9`: with stored `db_position = 0` and `db_location = 1`, the derived
query carries `db_location = 2` and the store's `db_location_selection` is
set to `"right"`; with stored `db_position = 1`, the derived query carries
the stored `db_location` unchanged (and the store is untouched).  Stated on
a refresh iteration against a cloud whose status call returns `None`, so
the issued query is visible in the `getStatus` event. -/
theorem C9_theorem (cfg : Config) (cloud : Cloud) (attrs query : Dict)
    (loc : Value) (h9 : cfg.device_type = 0xD9)
    (hcloud : ∀ q, cloud.get_device_status q = Except.ok none) :
    (dget attrs "db_position" = some (Value.vint 0) →
      dget attrs "db_location" = some (Value.vint 1) →
      refreshOne cfg (some cloud) none attrs query
        = Except.ok
            (dinsert attrs "db_location_selection" (Value.vstr "right"),
             [Event.getStatus (dinsert query "db_location" (Value.vint 2))]))
    ∧ (dget attrs "db_position" = some (Value.vint 1) →
      dget attrs "db_location" = some loc →
      refreshOne cfg (some cloud) none attrs query
        = Except.ok (attrs,
            [Event.getStatus (dinsert query "db_location" loc)])) := by
  constructor
  · intro hpos hloc
    have hd : deriveQueryD9 cfg attrs query
        = (dinsert attrs "db_location_selection" (Value.vstr "right"),
           dinsert query "db_location" (Value.vint 2)) := by
      unfold deriveQueryD9
      rw [if_pos h9]
      rw [show dgetD attrs "db_position" (Value.vint 1) = Value.vint 0 by
        unfold dgetD; rw [hpos]; rfl]
      rw [show dgetD attrs "db_location" (Value.vint 1) = Value.vint 1 by
        unfold dgetD; rw [hloc]; rfl]
      rfl
    unfold refreshOne
    rw [hd]
    dsimp only
    rw [hcloud]
    rfl
  · intro hpos hloc
    have hd : deriveQueryD9 cfg attrs query
        = (attrs, dinsert query "db_location" loc) := by
      unfold deriveQueryD9
      rw [if_pos h9]
      rw [show dgetD attrs "db_position" (Value.vint 1) = Value.vint 1 by
        unfold dgetD; rw [hpos]; rfl]
      rw [show dgetD attrs "db_location" (Value.vint 1) = loc by
        unfold dgetD; rw [hloc]; rfl]
      rfl
    unfold refreshOne
    rw [hd]
    dsimp only
    rw [hcloud]
    rfl

/-- Witness for C9 at concrete dual-chamber stores. -/
theorem C9_witness :
    refreshOne cfgD9 (some cloudNoStatus) none
        [("db_position", Value.vint 0), ("db_location", Value.vint 1)] []
      = Except.ok
          (dinsert [("db_position", Value.vint 0),
              ("db_location", Value.vint 1)]
            "db_location_selection" (Value.vstr "right"),
           [Event.getStatus (dinsert [] "db_location" (Value.vint 2))])
    ∧ refreshOne cfgD9 (some cloudNoStatus) none
        [("db_position", Value.vint 1), ("db_location", Value.vint 2)] []
      = Except.ok
          ([("db_position", Value.vint 1), ("db_location", Value.vint 2)],
           [Event.getStatus (dinsert [] "db_location" (Value.vint 2))]) :=
  ⟨(C9_theorem cfgD9 cloudNoStatus
      [("db_position", Value.vint 0), ("db_location", Value.vint 1)] []
      (Value.vint 1) rfl (fun _ => rfl)).1 (by decide) (by decide),
   (C9_theorem cfgD9 cloudNoStatus
      [("db_position", Value.vint 1), ("db_location", Value.vint 2)] []
      (Value.vint 2) rfl (fun _ => rfl)).2 (by decide) (by decide)⟩
